import Mathlib

/-!
Verification of the foodgram recipe-sharing API backend
(`backend/api/{serializer,views,filters}.py`) against its
natural-language specification.

The relational store is shallowly embedded as lists of rows (`Db`); the
caller identity is an `Option Nat` (`none` = anonymous request).  Each
serializer / view method of the source is translated into a Lean
function under a namespace named after the source class, keeping the
source's method names.  Serialized payloads are modelled as ordered
association lists `List (String × Field)`, mirroring the ordered dict
that a serializer's `.data` produces.
-/

namespace Foodgram

/-- User row (fields used by the serializers: id, username, email,
first name, last name). -/
structure User where
  id : Nat
  username : String
  email : String
  first_name : String
  last_name : String
deriving DecidableEq, Repr

/-- Ingredient reference row: `id`, `name`, `measurement_unit`. -/
structure Ingredient where
  id : Nat
  name : String
  measurement_unit : String
deriving DecidableEq, Repr

/-- Tag reference row: `id`, `name`, `color`, `slug`. -/
structure Tag where
  id : Nat
  name : String
  color : String
  slug : String
deriving DecidableEq, Repr

/-- Recipe row; `author` is the owning user's id. -/
structure Recipe where
  id : Nat
  author : Nat
  name : String
  image : String
  text : String
  cooking_time : Int
deriving DecidableEq, Repr

/-- Through row `IngredientInRecipe`: links a recipe to an ingredient
with an amount. -/
structure IngredientInRecipe where
  recipe : Nat
  ingredient : Nat
  amount : Int
deriving DecidableEq, Repr

/-- Row of the recipe–tag many-to-many table. -/
structure RecipeTag where
  recipe : Nat
  tag : Nat
deriving DecidableEq, Repr

/-- Favorite join row (user, recipe). -/
structure Favorite where
  user : Nat
  recipe : Nat
deriving DecidableEq, Repr

/-- ShoppingCart join row (user, recipe); reverse accessor from Recipe
is `shopping_recipe` in the source. -/
structure ShoppingCart where
  user : Nat
  recipe : Nat
deriving DecidableEq, Repr

/-- Follow join row: `user` follows `author`. -/
structure Follow where
  user : Nat
  author : Nat
deriving DecidableEq, Repr

/-- The relational store, one list of rows per table. -/
structure Db where
  users : List User
  ingredients : List Ingredient
  tags : List Tag
  recipes : List Recipe
  ingredient_list : List IngredientInRecipe
  recipe_tags : List RecipeTag
  favorites : List Favorite
  shopping_carts : List ShoppingCart
  follows : List Follow
deriving DecidableEq, Repr

/-- Lookup `Recipe.objects.filter(id=pk).first()`. -/
def Db.findRecipe (db : Db) (pk : Nat) : Option Recipe :=
  db.recipes.find? (fun r => r.id == pk)

/-- Lookup `User.objects.filter(id=pk).first()`. -/
def Db.findUser (db : Db) (pk : Nat) : Option User :=
  db.users.find? (fun u => u.id == pk)

/-- Lookup `Ingredient.objects.filter(id=pk).first()`. -/
def Db.findIngredient (db : Db) (pk : Nat) : Option Ingredient :=
  db.ingredients.find? (fun i => i.id == pk)

/-- Lookup `Tag.objects.filter(id=pk).first()`. -/
def Db.findTag (db : Db) (pk : Nat) : Option Tag :=
  db.tags.find? (fun t => t.id == pk)

/-- The expanded tags of a recipe (M2M rows joined to the Tag table). -/
def Db.tagsOf (db : Db) (r : Nat) : List Tag :=
  (db.recipe_tags.filter (fun rt => rt.recipe == r)).filterMap
    (fun rt => db.findTag rt.tag)

/-- The `ingredient_list` related manager of a recipe: its
`IngredientInRecipe` rows. -/
def Db.linksOf (db : Db) (r : Nat) : List IngredientInRecipe :=
  db.ingredient_list.filter (fun l => l.recipe == r)

/-- The tag ids attached to a recipe through the M2M table. -/
def Db.tagIdsOf (db : Db) (r : Nat) : List Nat :=
  (db.recipe_tags.filter (fun rt => rt.recipe == r)).map (fun rt => rt.tag)

/-- Fallback rows for foreign-key lookups.  Relational integrity
guarantees every `IngredientInRecipe.ingredient` and `Recipe.author`
resolves, so these defaults are never reached on a consistent store. -/
def defaultIngredient : Ingredient := ⟨0, "", ""⟩

/-- Fallback user for the author foreign key, see `defaultIngredient`. -/
def defaultUser : User := ⟨0, "", "", "", ""⟩

/-- View of a user produced by `UsersSerializer`. -/
structure UserView where
  id : Nat
  username : String
  email : String
  first_name : String
  last_name : String
  is_subscribed : Bool
deriving DecidableEq, Repr

/-- View of one (ingredient, amount) pair produced by
`IngredientInRecipeSerializer`. -/
structure IngredientAmountView where
  id : Nat
  name : String
  measurement_unit : String
  amount : Int
deriving DecidableEq, Repr

/-- A serialized field value.  Tag lists, the author object and the
ingredient list appear expanded inside the full recipe view. -/
inductive Field where
  | n : Int → Field
  | s : String → Field
  | b : Bool → Field
  | tagList : List Tag → Field
  | userObj : UserView → Field
  | ingrList : List IngredientAmountView → Field
deriving DecidableEq, Repr

/-- A serializer's `.data`: an ordered mapping of field names to
values. -/
abbrev SerializedObj := List (String × Field)

namespace UsersSerializer

/-- Source `UsersSerializer.get_is_subscribed`: false for anonymous
callers, otherwise existence of a Follow row
`user_me.follower.filter(author=obj)`. -/
def get_is_subscribed (db : Db) (caller : Option Nat) (obj : User) : Bool :=
  match caller with
  | none => false
  | some me => db.follows.any (fun f => f.user == me && f.author == obj.id)

/-- Source `UsersSerializer` output: id, username, email, first_name,
last_name, is_subscribed. -/
def data (db : Db) (caller : Option Nat) (obj : User) : UserView :=
  ⟨obj.id, obj.username, obj.email, obj.first_name, obj.last_name,
    get_is_subscribed db caller obj⟩

end UsersSerializer

/-- Source `IngredientInRecipeSerializer`: read-only fields drawn from
the linked ingredient plus the link's amount. -/
def IngredientInRecipeSerializer.data (db : Db) (l : IngredientInRecipe) :
    IngredientAmountView :=
  let i := (db.findIngredient l.ingredient).getD defaultIngredient
  ⟨i.id, i.name, i.measurement_unit, l.amount⟩

namespace RecipeViewSerializer

/-- Source `RecipeViewSerializer.get_is_favorited`: false when the
caller is anonymous, otherwise
`Favorite.objects.filter(user=request, recipe=obj).exists()`. -/
def get_is_favorited (db : Db) (caller : Option Nat) (obj : Recipe) : Bool :=
  match caller with
  | none => false
  | some u => db.favorites.any (fun f => f.user == u && f.recipe == obj.id)

/-- Source `RecipeViewSerializer.get_is_in_shopping_cart`: false when
the caller is anonymous, otherwise
`ShoppingCart.objects.filter(user=request, recipe=obj).exists()`. -/
def get_is_in_shopping_cart (db : Db) (caller : Option Nat) (obj : Recipe) : Bool :=
  match caller with
  | none => false
  | some u => db.shopping_carts.any (fun c => c.user == u && c.recipe == obj.id)

/-- Source `RecipeViewSerializer` output, fields in `Meta.fields`
order: id, tags, author, ingredients, is_favorited,
is_in_shopping_cart, name, image, text, cooking_time.  This is the
"full view" of a recipe. -/
def data (db : Db) (caller : Option Nat) (obj : Recipe) : SerializedObj :=
  [("id", .n (obj.id : Int)),
   ("tags", .tagList (db.tagsOf obj.id)),
   ("author",
     .userObj (UsersSerializer.data db caller ((db.findUser obj.author).getD defaultUser))),
   ("ingredients", .ingrList ((db.linksOf obj.id).map (IngredientInRecipeSerializer.data db))),
   ("is_favorited", .b (get_is_favorited db caller obj)),
   ("is_in_shopping_cart", .b (get_is_in_shopping_cart db caller obj)),
   ("name", .s obj.name),
   ("image", .s obj.image),
   ("text", .s obj.text),
   ("cooking_time", .n obj.cooking_time)]

end RecipeViewSerializer

/-- Source `RecipeSerializer` output (the "summary view"), fields in
`Meta.fields` order: id, name, image, cooking_time. -/
def RecipeSerializer.data (obj : Recipe) : SerializedObj :=
  [("id", .n (obj.id : Int)),
   ("name", .s obj.name),
   ("image", .s obj.image),
   ("cooking_time", .n obj.cooking_time)]

/-- Source `CreateRecipeSerializer.to_representation`: delegates to
`RecipeViewSerializer` with the request context, so a successful write
echoes the full view. -/
def CreateRecipeSerializer.to_representation (db : Db) (caller : Option Nat)
    (obj : Recipe) : SerializedObj :=
  RecipeViewSerializer.data db caller obj

/-- The DRF actions of `RecipeViewSet` relevant to serializer
selection; `patch` stands for the source's PATCH update action. -/
inductive RecipeAction where
  | list
  | retrieve
  | create
  | patch
deriving DecidableEq, Repr

/-- Source `RecipeViewSet.get_serializer_class`: the summary
`RecipeSerializer` for list/retrieve, `CreateRecipeSerializer` for
create and PATCH update.  `true` marks the read serializer. -/
def RecipeViewSet.get_serializer_class (a : RecipeAction) : Bool :=
  match a with
  | .list | .retrieve => true
  | .create | .patch => false

/-- Body of the response of a successful recipe write (create or PATCH
update): `CreateRecipeSerializer.to_representation` of the resulting
recipe for the calling user. -/
def writeResponseBody (db : Db) (caller : Option Nat) (obj : Recipe) : SerializedObj :=
  CreateRecipeSerializer.to_representation db caller obj

/-- Body of the response of a subsequent retrieve of the same recipe:
`RecipeViewSet.get_serializer_class` selects `RecipeSerializer` for the
retrieve action, so the read returns the summary view. -/
def readResponseBody (obj : Recipe) : SerializedObj :=
  RecipeSerializer.data obj

/-- The field names of the summary view. -/
def summaryFields : List String := ["id", "name", "image", "cooking_time"]

/-- A concrete consistent store used for counterexamples: one user,
one ingredient, one tag, one recipe with one ingredient link. -/
def db1 : Db :=
  { users := [⟨1, "alice", "alice@example.com", "Alice", "A"⟩]
    ingredients := [⟨1, "flour", "g"⟩]
    tags := [⟨1, "breakfast", "#E26C2D", "breakfast"⟩]
    recipes := [⟨1, 1, "pie", "pie.png", "bake it", 30⟩]
    ingredient_list := [⟨1, 1, 200⟩]
    recipe_tags := [⟨1, 1⟩]
    favorites := []
    shopping_carts := []
    follows := [] }

/-- The recipe stored in `db1`. -/
def recipe1 : Recipe := ⟨1, 1, "pie", "pie.png", "bake it", 30⟩

/-- C1, counterexample: for the concrete store `db1` and its recipe,
the body returned by a successful write (the full view) differs from
the body returned by a subsequent retrieve of the same recipe by the
same caller (the summary view), so write and read serializations are
not equal. -/
theorem c1_write_read_counterexample :
    writeResponseBody db1 (some 1) recipe1 ≠ readResponseBody recipe1 := by
  decide

/-- C1, amended: a successful recipe write echoes the full view
(`RecipeViewSerializer`), while a subsequent read returns the summary
view (`RecipeSerializer`); the two serializations are not equal, but
restricting the write response to the summary fields (id, name, image,
cooking_time) yields exactly the read response, for every store,
caller and recipe. -/
theorem c1_write_projects_to_read :
    ∀ (db : Db) (caller : Option Nat) (r : Recipe),
      (writeResponseBody db caller r).filter
        (fun p => summaryFields.contains p.1) = readResponseBody r := by
  intro db caller r
  rfl

/-- C3: in the full view, `is_favorited` and `is_in_shopping_cart` are
false for an anonymous caller, and for an authenticated caller each
equals the existence of a Favorite (respectively ShoppingCart) row for
the (caller, recipe) pair. -/
theorem c3_flags_reflect_join_rows :
    ∀ (db : Db) (r : Recipe),
      RecipeViewSerializer.get_is_favorited db none r = false ∧
      RecipeViewSerializer.get_is_in_shopping_cart db none r = false ∧
      ∀ u : Nat,
        (RecipeViewSerializer.get_is_favorited db (some u) r = true ↔
          ∃ f ∈ db.favorites, f.user = u ∧ f.recipe = r.id) ∧
        (RecipeViewSerializer.get_is_in_shopping_cart db (some u) r = true ↔
          ∃ c ∈ db.shopping_carts, c.user = u ∧ c.recipe = r.id) := by
  intro db r
  refine ⟨rfl, rfl, fun u => ⟨?_, ?_⟩⟩ <;>
    simp [RecipeViewSerializer.get_is_favorited,
      RecipeViewSerializer.get_is_in_shopping_cart, List.any_eq_true,
      Bool.and_eq_true, beq_iff_eq]

/-- The rows selected by `download_shopping_cart`:
`IngredientInRecipe.objects.filter(recipe__shopping_recipe__user=user)`
joined with the Ingredient table by
`.values('ingredient__name', 'ingredient__measurement_unit')`; each
selected link row becomes a `(name, unit, amount)` triple. -/
def cartIngredientRows (db : Db) (u : Nat) : List (String × String × Int) :=
  (db.ingredient_list.filter
    (fun l => db.shopping_carts.any (fun c => c.user == u && c.recipe == l.recipe))).filterMap
    (fun l => (db.findIngredient l.ingredient).map
      (fun i => (i.name, i.measurement_unit, l.amount)))

/-- The grouping key of one selected row: its (name, unit) pair. -/
def rowKey (r : String × String × Int) : String × String := (r.1, r.2.1)

/-- The distinct group keys of the selection in order of first
appearance, as produced by the GROUP BY of `values(...).annotate`. -/
def groupKeys : List (String × String × Int) → List (String × String)
  | [] => []
  | r :: rs => rowKey r :: (groupKeys rs).filter (fun k => k ≠ rowKey r)

/-- One row of the annotated queryset, named after the `values` keys
and the `sum=Sum('amount')` annotation of the source. -/
structure AggRow where
  ingredient__name : String
  ingredient__measurement_unit : String
  sum : Int
deriving DecidableEq, Repr

/-- The annotated queryset
`.values('ingredient__name', 'ingredient__measurement_unit').annotate(sum=Sum('amount'))`:
one row per distinct (name, unit) key carrying the sum of the amounts
of the rows in that group. -/
def annotateSum (rows : List (String × String × Int)) : List AggRow :=
  (groupKeys rows).map (fun k =>
    ⟨k.1, k.2,
      ((rows.filter (fun r => r.1 == k.1 && r.2.1 == k.2)).map (fun r => r.2.2)).sum⟩)

/-- Source `RecipeViewSet.ingredients_to_txt`: accumulates one
formatted line per aggregated row. -/
def RecipeViewSet.ingredients_to_txt (ingredients : List AggRow) : String :=
  ingredients.foldl
    (fun shopping_list ingredient =>
      shopping_list ++ ingredient.ingredient__name ++ "  - " ++
        toString ingredient.sum ++ "(" ++
        ingredient.ingredient__measurement_unit ++ ")\n")
    ""

/-- Source `RecipeViewSet.download_shopping_cart`: aggregate the
caller's cart and render it with `ingredients_to_txt`. -/
def RecipeViewSet.download_shopping_cart (db : Db) (caller : Nat) : String :=
  RecipeViewSet.ingredients_to_txt (annotateSum (cartIngredientRows db caller))

/-- The rendered line of one aggregated row, newline included. -/
def lineFor (a : AggRow) : String :=
  a.ingredient__name ++ "  - " ++ toString a.sum ++ "(" ++
    a.ingredient__measurement_unit ++ ")\n"

theorem foldl_append_str (l : List String) (s : String) :
    l.foldl (· ++ ·) s = s ++ l.foldl (· ++ ·) "" := by
  induction l generalizing s with
  | nil => simp
  | cons x xs ih =>
    simp only [List.foldl_cons]
    rw [ih (s ++ x), ih ("" ++ x)]
    simp [String.append_assoc]

theorem ingredients_to_txt_eq_join (l : List AggRow) :
    RecipeViewSet.ingredients_to_txt l = String.join (l.map lineFor) := by
  rw [RecipeViewSet.ingredients_to_txt,
    show (fun (acc : String) (a : AggRow) => acc ++ a.ingredient__name ++ "  - " ++
        toString a.sum ++ "(" ++ a.ingredient__measurement_unit ++ ")\n") =
      fun acc a => (· ++ ·) acc (lineFor a) by
        funext acc a
        simp [lineFor, String.append_assoc],
    ← List.foldl_map, String.join, foldl_append_str]

theorem groupKeys_nodup (rows : List (String × String × Int)) :
    (groupKeys rows).Nodup := by
  induction rows with
  | nil => simp [groupKeys]
  | cons r rs ih =>
    simp only [groupKeys, List.nodup_cons]
    refine ⟨fun hmem => ?_, ih.filter _⟩
    have h := (List.mem_filter.mp hmem).2
    simp at h

theorem groupKeys_mem (rows : List (String × String × Int)) (k : String × String) :
    k ∈ groupKeys rows ↔ k ∈ rows.map rowKey := by
  induction rows with
  | nil => simp [groupKeys]
  | cons r rs ih =>
    simp only [groupKeys, List.map_cons, List.mem_cons, List.mem_filter,
      decide_eq_true_eq, ih]
    by_cases hk : k = rowKey r
    · simp [hk]
    · simp [hk]

theorem annotateSum_keys (rows : List (String × String × Int)) :
    (annotateSum rows).map
      (fun a => (a.ingredient__name, a.ingredient__measurement_unit)) = groupKeys rows := by
  simp [annotateSum, List.map_map, Function.comp_def]

/-- A cart holding two recipes that both use the ingredient (flour, g),
with amounts 200 and 100, owned by user 1. -/
def dbFlour : Db :=
  { users := [⟨1, "bob", "bob@example.com", "Bob", "B"⟩]
    ingredients := [⟨1, "flour", "g"⟩]
    tags := []
    recipes := [⟨1, 1, "A", "a.png", "", 10⟩, ⟨2, 1, "B", "b.png", "", 20⟩]
    ingredient_list := [⟨1, 1, 200⟩, ⟨2, 1, 100⟩]
    recipe_tags := []
    favorites := []
    shopping_carts := [⟨1, 1⟩, ⟨1, 2⟩]
    follows := [] }

/-- C2: the downloaded shopping list renders exactly one line per
distinct (name, unit) group of the caller's cart rows — the rendered
text is the concatenation of one formatted line per aggregated row,
the aggregated keys are duplicate-free and are exactly the keys
occurring in the cart selection, and each aggregated sum is the sum of
the amounts of the matching rows; on the concrete cart holding recipe
A (flour, 200, g) and recipe B (flour, 100, g) for user 1 the rendered
document is the single line "flour  - 300(g)". -/
theorem c2_shopping_list_aggregation :
    (∀ (db : Db) (u : Nat),
      RecipeViewSet.download_shopping_cart db u =
        String.join ((annotateSum (cartIngredientRows db u)).map lineFor) ∧
      ((annotateSum (cartIngredientRows db u)).map
        (fun a => (a.ingredient__name, a.ingredient__measurement_unit))).Nodup ∧
      (∀ k : String × String,
        k ∈ (annotateSum (cartIngredientRows db u)).map
          (fun a => (a.ingredient__name, a.ingredient__measurement_unit)) ↔
        k ∈ (cartIngredientRows db u).map rowKey) ∧
      (∀ a ∈ annotateSum (cartIngredientRows db u),
        a.sum = (((cartIngredientRows db u).filter
          (fun r => rowKey r = (a.ingredient__name, a.ingredient__measurement_unit))).map
            (fun r => r.2.2)).sum)) ∧
    RecipeViewSet.download_shopping_cart dbFlour 1 = "flour  - 300(g)\n" := by
  refine ⟨fun db u => ⟨?_, ?_, ?_, ?_⟩, by decide⟩
  · rw [RecipeViewSet.download_shopping_cart, ingredients_to_txt_eq_join]
  · rw [annotateSum_keys]; exact groupKeys_nodup _
  · intro k; rw [annotateSum_keys]; exact groupKeys_mem _ k
  · intro a ha
    simp only [annotateSum, List.mem_map] at ha
    obtain ⟨k, hk, rfl⟩ := ha
    simp only
    congr 1
    congr 1
    apply List.filter_congr
    intro r hr
    rw [Bool.eq_iff_iff]
    simp [rowKey, Prod.ext_iff]

/-- Input shape accepted by `CreateIngredientsInRecipeSerializer`:
an {id, amount} pair of integers. -/
structure IngredientInput where
  id : Int
  amount : Int
deriving DecidableEq, Repr

/-- Source `CreateIngredientsInRecipeSerializer.validate_amount`:
rejects any amount below 1 with a validation error. -/
def CreateIngredientsInRecipeSerializer.validate_amount (value : Int) :
    Except String Int :=
  if value < 1 then .error "Количество ингредиента должно быть больше 0!"
  else .ok value

/-- Field validation of the `many=True` child serializer: runs
`validate_amount` on every submitted entry, stopping at the first
failure. -/
def validateAmounts : List IngredientInput → Except String Unit
  | [] => .ok ()
  | i :: rest =>
    match CreateIngredientsInRecipeSerializer.validate_amount i.amount with
    | .error e => .error e
    | .ok _ => validateAmounts rest

namespace CreateRecipeSerializer

/-- The loop body of the source `CreateRecipeSerializer.validate`:
walk the submitted ingredients accumulating seen ids in
`lst_ingredient`, rejecting as soon as an id repeats. -/
def validateLoop (lst_ingredient : List Int) :
    List IngredientInput → Except String Unit
  | [] => .ok ()
  | ingredient :: rest =>
    if ingredient.id ∈ lst_ingredient then
      .error "Ингредиенты должны быть уникальными!"
    else validateLoop (ingredient.id :: lst_ingredient) rest

/-- Source `CreateRecipeSerializer.validate`: the duplicate-id check
over `initial_data['ingredients']`. -/
def validate (ingredients : List IngredientInput) : Except String Unit :=
  validateLoop [] ingredients

/-- The recipe-write validation pipeline: the framework first runs the
per-field validation of the nested child serializer (which includes
`validate_amount`), then the serializer-level `validate`. -/
def is_valid (ingredients : List IngredientInput) : Except String Unit :=
  match validateAmounts ingredients with
  | .error e => .error e
  | .ok _ => validate ingredients

end CreateRecipeSerializer

theorem validateAmounts_ok (l : List IngredientInput) :
    (validateAmounts l).isOk = true ↔ ∀ i ∈ l, 1 ≤ i.amount := by
  induction l with
  | nil => simp [validateAmounts, Except.isOk, Except.toBool]
  | cons i rest ih =>
    by_cases h : i.amount < 1
    · simp [validateAmounts, CreateIngredientsInRecipeSerializer.validate_amount, h,
        Except.isOk, Except.toBool]
    · simp [validateAmounts, CreateIngredientsInRecipeSerializer.validate_amount, h, ih]
      intro _
      omega

theorem validateLoop_ok (l : List IngredientInput) :
    ∀ seen : List Int,
      (CreateRecipeSerializer.validateLoop seen l).isOk = true ↔
        ((l.map (fun i => i.id)).Nodup ∧ ∀ i ∈ l, i.id ∉ seen) := by
  induction l with
  | nil => intro seen; simp [CreateRecipeSerializer.validateLoop, Except.isOk, Except.toBool]
  | cons i rest ih =>
    intro seen
    by_cases h : i.id ∈ seen
    · simp [CreateRecipeSerializer.validateLoop, h, Except.isOk, Except.toBool]
    · simp only [CreateRecipeSerializer.validateLoop, if_neg h, ih, List.map_cons,
        List.nodup_cons, List.mem_map, List.mem_cons, not_or]
      constructor
      · rintro ⟨hnd, hall⟩
        refine ⟨⟨fun ⟨j, hj, hje⟩ => (hall j hj).1 hje, hnd⟩, ?_⟩
        rintro j (rfl | hj)
        · exact h
        · exact (hall j hj).2
      · rintro ⟨⟨hni, hnd⟩, hall⟩
        exact ⟨hnd, fun j hj => ⟨fun hje => hni ⟨j, hj, hje⟩, hall j (Or.inr hj)⟩⟩

/-- C4: recipe-write validation accepts a submitted ingredient list
exactly when every amount is at least 1 and no ingredient id repeats;
in particular the list [(id 1, amount 0)] is rejected and the list
[(id 1, amount 2), (id 1, amount 3)] is rejected. -/
theorem c4_ingredient_validation :
    (∀ l : List IngredientInput,
      (CreateRecipeSerializer.is_valid l).isOk = true ↔
        ((∀ i ∈ l, 1 ≤ i.amount) ∧ ((l.map (fun i => i.id)).Nodup))) ∧
    (CreateRecipeSerializer.is_valid [⟨1, 0⟩]).isOk = false ∧
    (CreateRecipeSerializer.is_valid [⟨1, 2⟩, ⟨1, 3⟩]).isOk = false := by
  refine ⟨fun l => ?_, by decide, by decide⟩
  cases h : validateAmounts l with
  | error e =>
    have hno : ¬ (∀ i ∈ l, 1 ≤ i.amount) := by
      rw [← validateAmounts_ok, h]
      simp [Except.isOk, Except.toBool]
    simp [CreateRecipeSerializer.is_valid, h, Except.isOk, Except.toBool, hno]
  | ok u =>
    have hyes : ∀ i ∈ l, 1 ≤ i.amount := by
      rw [← validateAmounts_ok, h]
      simp [Except.isOk, Except.toBool]
    have hloop := validateLoop_ok l []
    simp only [List.not_mem_nil, not_false_iff, implies_true, and_true] at hloop
    simp only [CreateRecipeSerializer.is_valid, h]
    rw [CreateRecipeSerializer.validate, hloop]
    exact ⟨fun hn => ⟨hyes, hn⟩, fun hp => hp.2⟩

/-- The methods actually defined on the source `RecipeFilter` class
(`filters.py`): the favorites filter method and the shopping-cart
method, which is named `get_is_in_shopping_cart` in the class body. -/
def recipeFilterMethods : List String :=
  ["is_recipe_in_favorites_filter", "get_is_in_shopping_cart"]

/-- The method name the `is_in_shopping_cart` filter declaration binds
in the source: `method='is_recipe_in_shoppingcart_filter'`. -/
def isInShoppingCartBoundMethod : String := "is_recipe_in_shoppingcart_filter"

/-- The predicate "recipe is favorited by user u"
(`favorites__user=self.request.user`). -/
def favoritedBy (db : Db) (u : Nat) (r : Recipe) : Bool :=
  db.favorites.any (fun f => f.user == u && f.recipe == r.id)

/-- The predicate "recipe is in the cart of user u"
(`shopping_recipe__user=self.request.user`). -/
def inCartOf (db : Db) (u : Nat) (r : Recipe) : Bool :=
  db.shopping_carts.any (fun c => c.user == u && c.recipe == r.id)

namespace RecipeFilter

/-- Source `RecipeFilter.is_recipe_in_favorites_filter`: for an
authenticated caller, filter to favorited recipes when the raw query
value is the string "1" and otherwise exclude them; for an anonymous
caller return the base queryset.  `dataValue` is
`self.data.get('is_favorited')`. -/
def is_recipe_in_favorites_filter (db : Db) (caller : Option Nat)
    (dataValue : Option String) : List Recipe :=
  match caller with
  | none => db.recipes
  | some u =>
    if dataValue = some "1" then
      db.recipes.filter (fun r => favoritedBy db u r)
    else
      db.recipes.filter (fun r => !(favoritedBy db u r))

/-- Source `RecipeFilter.get_is_in_shopping_cart`: same shape as the
favorites method, scoped to `shopping_recipe` rows.  Defined on the
class but never bound by any filter declaration. -/
def get_is_in_shopping_cart (db : Db) (caller : Option Nat)
    (dataValue : Option String) : List Recipe :=
  match caller with
  | none => db.recipes
  | some u =>
    if dataValue = some "1" then
      db.recipes.filter (fun r => inCartOf db u r)
    else
      db.recipes.filter (fun r => !(inCartOf db u r))

end RecipeFilter

/-- django-filter dispatch of the `is_favorited` NumberFilter: when the
key is absent (or empty) the queryset is untouched; when a numeric
value is present the bound method runs on it (non-numeric values are
rejected by the filter form before dispatch and are not modelled). -/
def applyIsFavoritedFilter (db : Db) (caller : Option Nat)
    (value : Option String) : List Recipe :=
  match value with
  | none => db.recipes
  | some _ => RecipeFilter.is_recipe_in_favorites_filter db caller value

/-- django-filter dispatch of the `is_in_shopping_cart` NumberFilter:
when a value is present, `FilterMethod` first resolves the bound method
name against the parent filterset and asserts it exists; only then
would the method body run. -/
def applyIsInShoppingCartFilter (db : Db) (caller : Option Nat)
    (value : Option String) : Except String (List Recipe) :=
  match value with
  | none => .ok db.recipes
  | some _ =>
    if recipeFilterMethods.contains isInShoppingCartBoundMethod then
      .ok (RecipeFilter.get_is_in_shopping_cart db caller value)
    else
      .error "AssertionError: expected parent FilterSet to have the bound filter method"

/-- A store with two recipes of which user 1 favorites the first. -/
def db5 : Db :=
  { users := [⟨1, "eva", "eva@example.com", "Eva", "E"⟩]
    ingredients := []
    tags := []
    recipes := [⟨1, 1, "borsch", "b.png", "", 40⟩, ⟨2, 1, "kasha", "k.png", "", 15⟩]
    ingredient_list := []
    recipe_tags := []
    favorites := [⟨1, 1⟩]
    shopping_carts := []
    follows := [] }

/-- C5, counterexample: the claim says any value other than "1" leaves
the recipe set unfiltered, but for the authenticated user 1 the query
value "0" excludes the favorited recipe: the filtered set differs from
the full recipe set. -/
theorem c5_favorites_filter_counterexample :
    applyIsFavoritedFilter db5 (some 1) (some "0") ≠ db5.recipes := by
  decide

/-- C5, amended: with key absent or an anonymous caller the recipe set
is unfiltered; the value "1" from an authenticated caller restricts the
set to recipes favorited by that caller; any other present value from
an authenticated caller excludes the favorited recipes instead of
leaving the set unfiltered. -/
theorem c5_favorites_filter_amended :
    ∀ (db : Db) (caller : Option Nat) (v : String) (u : Nat),
      applyIsFavoritedFilter db caller none = db.recipes ∧
      applyIsFavoritedFilter db none (some v) = db.recipes ∧
      applyIsFavoritedFilter db (some u) (some "1") =
        db.recipes.filter (fun r => favoritedBy db u r) ∧
      (v ≠ "1" →
        applyIsFavoritedFilter db (some u) (some v) =
          db.recipes.filter (fun r => !(favoritedBy db u r))) := by
  intro db caller v u
  refine ⟨rfl, rfl, rfl, fun hv => ?_⟩
  simp [applyIsFavoritedFilter, RecipeFilter.is_recipe_in_favorites_filter, hv]

/-- C5, witness for the amended theorem at concrete inputs. -/
theorem c5_favorites_filter_amended_witness :
    applyIsFavoritedFilter db5 (some 1) (some "1") =
      db5.recipes.filter (fun r => favoritedBy db5 1 r) ∧
    applyIsFavoritedFilter db5 (some 1) (some "0") =
      db5.recipes.filter (fun r => !(favoritedBy db5 1 r)) :=
  ⟨(c5_favorites_filter_amended db5 (some 1) "0" 1).2.2.1,
   (c5_favorites_filter_amended db5 (some 1) "0" 1).2.2.2 (by decide)⟩

/-- C6: the `is_in_shopping_cart` filter declaration binds the method
name `is_recipe_in_shoppingcart_filter`, which the filterset does not
define (its method is named `get_is_in_shopping_cart`), so any request
carrying the key dies in the dispatch assertion instead of being
filtered; the orphaned method itself does implement the claimed
behavior — for an authenticated caller and value "1" it keeps exactly
the recipes in that caller's cart. -/
theorem c6_cart_filter_method_unbound :
    (recipeFilterMethods.contains isInShoppingCartBoundMethod = false) ∧
    (∀ (db : Db) (caller : Option Nat) (v : String),
      applyIsInShoppingCartFilter db caller (some v) =
        .error "AssertionError: expected parent FilterSet to have the bound filter method") ∧
    (∀ (db : Db) (u : Nat) (r : Recipe),
      r ∈ RecipeFilter.get_is_in_shopping_cart db (some u) (some "1") ↔
        r ∈ db.recipes ∧ ∃ c ∈ db.shopping_carts, c.user = u ∧ c.recipe = r.id) := by
  refine ⟨by decide, fun db caller v => rfl, fun db u r => ?_⟩
  simp [RecipeFilter.get_is_in_shopping_cart, inCartOf, List.mem_filter,
    List.any_eq_true, Bool.and_eq_true, beq_iff_eq]

/-- Payload of a recipe write after field validation: the nested
ingredient inputs, the submitted tag ids, and the scalar recipe
fields. -/
structure RecipePayload where
  ingredients : List IngredientInput
  tags : List Nat
  name : String
  image : String
  text : String
  cooking_time : Int
deriving DecidableEq, Repr

/-- Source `IngredientInRecipe.objects.get_or_create(recipe=...,
ingredient=..., amount=...)`: appends a fresh row unless a row with
exactly these field values already exists. -/
def get_or_create_link (links : List IngredientInRecipe) (r ing : Nat)
    (amount : Int) : List IngredientInRecipe :=
  if links.any (fun l => l.recipe == r && l.ingredient == ing && l.amount == amount) then
    links
  else links ++ [⟨r, ing, amount⟩]

/-- Source `instance.tags.add(item)`: M2M add, a no-op when the pair is
already linked. -/
def tags_add (rts : List RecipeTag) (r t : Nat) : List RecipeTag :=
  if rts.any (fun rt => rt.recipe == r && rt.tag == t) then rts
  else rts ++ [⟨r, t⟩]

/-- The ingredient loop of `recipe_create_or_update`:
`get_object_or_404(Ingredient, pk=item['id'])` followed by
`get_or_create` of the link row; a missing ingredient id aborts the
loop with Http404. -/
def addIngredientLinks (db : Db) (r : Nat) :
    List IngredientInput → Except String Db
  | [] => .ok db
  | item :: rest =>
    match db.ingredients.find? (fun g => (g.id : Int) == item.id) with
    | none => .error "Http404: ingredient does not exist"
    | some ing =>
      addIngredientLinks
        { db with ingredient_list :=
            get_or_create_link db.ingredient_list r ing.id item.amount }
        r rest

/-- The tag loop of `recipe_create_or_update`: `instance.tags.add(item)`
for each submitted tag id. -/
def addTags (db : Db) (r : Nat) : List Nat → Db
  | [] => db
  | t :: rest => addTags { db with recipe_tags := tags_add db.recipe_tags r t } r rest

/-- Source `CreateRecipeSerializer.recipe_create_or_update`:
materialize the submitted ingredient pairs, then attach the submitted
tags. -/
def CreateRecipeSerializer.recipe_create_or_update (db : Db) (r : Nat)
    (ingredients : List IngredientInput) (tags : List Nat) : Except String Db :=
  match addIngredientLinks db r ingredients with
  | .error e => .error e
  | .ok db2 => .ok (addTags db2 r tags)

/-- Source `instance.ingredients.clear()`: drop every ingredient link
of the recipe. -/
def clearIngredients (db : Db) (r : Nat) : Db :=
  { db with ingredient_list := db.ingredient_list.filter (fun l => l.recipe != r) }

/-- Source `instance.tags.clear()`: drop every tag association of the
recipe. -/
def clearTags (db : Db) (r : Nat) : Db :=
  { db with recipe_tags := db.recipe_tags.filter (fun rt => rt.recipe != r) }

/-- Source `super().update(instance, validated_data)`: write the
remaining scalar fields of the payload onto the recipe row. -/
def setScalarFields (db : Db) (r : Nat) (p : RecipePayload) : Db :=
  { db with recipes := db.recipes.map (fun row =>
      if row.id == r then
        { row with
          name := p.name
          image := p.image
          text := p.text
          cooking_time := p.cooking_time }
      else row) }

/-- Source `CreateRecipeSerializer.update`: clear both association
sets, re-materialize them from the submitted payload, then write the
scalar fields. -/
def CreateRecipeSerializer.update (db : Db) (r : Nat) (p : RecipePayload) :
    Except String Db :=
  match CreateRecipeSerializer.recipe_create_or_update
      (clearTags (clearIngredients db r) r) r p.ingredients p.tags with
  | .error e => .error e
  | .ok db2 => .ok (setScalarFields db2 r p)

theorem filter_key_ne_then_eq {α : Type} (f : α → Nat) (l : List α) (r : Nat) :
    (l.filter (fun x => f x != r)).filter (fun x => f x == r) = [] := by
  induction l with
  | nil => rfl
  | cons x xs ih =>
    simp only [List.filter_cons]
    by_cases hx : f x = r
    · have hbne : (f x != r) = false := by simp [bne, hx]
      simp [hbne, ih]
    · have hbne : (f x != r) = true := by simp [bne, hx]
      have hne : (f x == r) = false := by simp [hx]
      simp [hbne, hne, ih]

theorem filter_key_ne_then_other {α : Type} (f : α → Nat) (l : List α)
    (r r2 : Nat) (h : r2 ≠ r) :
    (l.filter (fun x => f x != r)).filter (fun x => f x == r2) =
      l.filter (fun x => f x == r2) := by
  induction l with
  | nil => rfl
  | cons x xs ih =>
    simp only [List.filter_cons]
    by_cases hx : f x = r
    · have hne : (f x == r2) = false := by
        rw [beq_eq_false_iff_ne, hx]
        exact fun he => h he.symm
      have hbne : (f x != r) = false := by simp [bne, hx]
      simp [hne, hbne, ih]
    · have hbne : (f x != r) = true := by simp [bne, hx]
      by_cases hx2 : f x = r2
      · have heq : (f x == r2) = true := by simp [hx2]
        simp [hbne, heq, ih]
      · have hne : (f x == r2) = false := by simp [hx2]
        simp [hbne, hne, ih]

theorem tags_add_mem (rts : List RecipeTag) (r t0 : Nat) (rt : RecipeTag) :
    rt ∈ tags_add rts r t0 ↔ rt ∈ rts ∨ rt = ⟨r, t0⟩ := by
  rw [tags_add]
  by_cases h : rts.any (fun x => x.recipe == r && x.tag == t0) = true
  · obtain ⟨x, hx, hp⟩ := List.any_eq_true.mp h
    simp only [Bool.and_eq_true, beq_iff_eq] at hp
    obtain ⟨h1, h2⟩ := hp
    have hxe : x = (⟨r, t0⟩ : RecipeTag) := by
      cases x
      simp_all
    simp only [h, if_true]
    constructor
    · exact Or.inl
    · rintro (hm | rfl)
      · exact hm
      · rwa [hxe] at hx
  · simp [h, List.mem_append]

theorem addTags_mem (tagIds : List Nat) :
    ∀ (db : Db) (r : Nat) (rt : RecipeTag),
      rt ∈ (addTags db r tagIds).recipe_tags ↔
        rt ∈ db.recipe_tags ∨ (rt.recipe = r ∧ rt.tag ∈ tagIds) := by
  induction tagIds with
  | nil => intro db r rt; simp [addTags]
  | cons t rest ih =>
    intro db r rt
    rw [addTags, ih, tags_add_mem]
    cases rt with
    | mk rtr rtt =>
      simp only [RecipeTag.mk.injEq, List.mem_cons]
      constructor
      · rintro ((hm | ⟨rfl, rfl⟩) | ⟨rfl, hmem⟩)
        · exact Or.inl hm
        · exact Or.inr ⟨rfl, Or.inl rfl⟩
        · exact Or.inr ⟨rfl, Or.inr hmem⟩
      · rintro (hm | ⟨rfl, (rfl | hmem)⟩)
        · exact Or.inl (Or.inl hm)
        · exact Or.inl (Or.inr ⟨rfl, rfl⟩)
        · exact Or.inr ⟨rfl, hmem⟩

theorem addTags_append (tagIds : List Nat) :
    ∀ (db : Db) (r : Nat),
      ∃ newRts : List RecipeTag,
        (addTags db r tagIds).recipe_tags = db.recipe_tags ++ newRts ∧
        ∀ rt ∈ newRts, rt.recipe = r := by
  induction tagIds with
  | nil => intro db r; exact ⟨[], by simp [addTags], by simp⟩
  | cons t rest ih =>
    intro db r
    rw [addTags]
    by_cases h : db.recipe_tags.any (fun x => x.recipe == r && x.tag == t) = true
    · have htag : tags_add db.recipe_tags r t = db.recipe_tags := by
        rw [tags_add, if_pos h]
      rw [htag]
      exact ih db r
    · have htag : tags_add db.recipe_tags r t = db.recipe_tags ++ [⟨r, t⟩] := by
        rw [tags_add, if_neg h]
      rw [htag]
      obtain ⟨new2, hnew2, hall2⟩ :=
        ih { db with recipe_tags := db.recipe_tags ++ [⟨r, t⟩] } r
      refine ⟨⟨r, t⟩ :: new2, ?_, ?_⟩
      · rw [hnew2]
        simp
      · intro rt hrt
        rcases List.mem_cons.mp hrt with rfl | hm
        · rfl
        · exact hall2 rt hm

theorem addTags_ingredient_list (tagIds : List Nat) :
    ∀ (db : Db) (r : Nat),
      (addTags db r tagIds).ingredient_list = db.ingredient_list ∧
      (addTags db r tagIds).ingredients = db.ingredients ∧
      (addTags db r tagIds).recipes = db.recipes := by
  induction tagIds with
  | nil => intro db r; exact ⟨rfl, rfl, rfl⟩
  | cons t rest ih => intro db r; exact ih _ r

theorem mem_tagIdsOf (db : Db) (r t : Nat) :
    t ∈ Db.tagIdsOf db r ↔ (⟨r, t⟩ : RecipeTag) ∈ db.recipe_tags := by
  simp only [Db.tagIdsOf, List.mem_map, List.mem_filter, beq_iff_eq]
  constructor
  · rintro ⟨rt, ⟨hm, hr⟩, rfl⟩
    cases rt
    simp_all
  · intro hm
    exact ⟨⟨r, t⟩, ⟨hm, rfl⟩, rfl⟩

theorem addIngredientLinks_ok (items : List IngredientInput) :
    ∀ (db : Db) (r : Nat),
      (∀ i ∈ items, (db.ingredients.find? (fun g => (g.id : Int) == i.id)).isSome = true) →
      ((items.map (fun i => i.id)).Nodup) →
      (∀ l ∈ db.ingredient_list, l.recipe = r →
        (l.ingredient : Int) ∉ items.map (fun i => i.id)) →
      ∃ db' : Db, addIngredientLinks db r items = .ok db' ∧
        db'.ingredients = db.ingredients ∧
        db'.recipe_tags = db.recipe_tags ∧
        db'.recipes = db.recipes ∧
        (Db.linksOf db' r).map (fun l => ((l.ingredient : Int), l.amount)) =
          (Db.linksOf db r).map (fun l => ((l.ingredient : Int), l.amount)) ++
            items.map (fun i => (i.id, i.amount)) ∧
        (∀ r2, r2 ≠ r → Db.linksOf db' r2 = Db.linksOf db r2) := by
  induction items with
  | nil =>
    intro db r _ _ _
    exact ⟨db, rfl, rfl, rfl, rfl, by simp, fun r2 _ => rfl⟩
  | cons item rest ih =>
    intro db r hfind hnod hfresh
    obtain ⟨ing, hing⟩ :=
      Option.isSome_iff_exists.mp (hfind item (by simp))
    have hid : (ing.id : Int) = item.id := by
      have := List.find?_some hing
      simpa [beq_iff_eq] using this
    have hany :
        db.ingredient_list.any
          (fun l => l.recipe == r && l.ingredient == ing.id && l.amount == item.amount) = false := by
      rw [Bool.eq_false_iff]
      intro hcontra
      obtain ⟨l, hl, hp⟩ := List.any_eq_true.mp hcontra
      simp only [Bool.and_eq_true, beq_iff_eq] at hp
      obtain ⟨⟨h1, h2⟩, _⟩ := hp
      have hnot := hfresh l hl h1
      rw [h2, hid] at hnot
      exact hnot (by simp)
    set row : IngredientInRecipe := ⟨r, ing.id, item.amount⟩ with hrow
    have hgoc : get_or_create_link db.ingredient_list r ing.id item.amount =
        db.ingredient_list ++ [row] := by
      rw [get_or_create_link, hany]
      simp
    have hstep :
        addIngredientLinks db r (item :: rest) =
          addIngredientLinks
            { db with ingredient_list := db.ingredient_list ++ [row] } r rest := by
      simp only [addIngredientLinks, hing]
      rw [hgoc]
    set db2 : Db := { db with ingredient_list := db.ingredient_list ++ [row] } with hdb2
    have hfind2 : ∀ i ∈ rest,
        (db2.ingredients.find? (fun g => (g.id : Int) == i.id)).isSome = true :=
      fun i hi => hfind i (by simp [hi])
    have hnod2 : (rest.map (fun i => i.id)).Nodup := (List.nodup_cons.mp hnod).2
    have hhead : item.id ∉ rest.map (fun i => i.id) := (List.nodup_cons.mp hnod).1
    have hfresh2 : ∀ l ∈ db2.ingredient_list, l.recipe = r →
        (l.ingredient : Int) ∉ rest.map (fun i => i.id) := by
      intro l hl hlr
      rcases List.mem_append.mp hl with hold | hnew
      · intro hmem
        exact hfresh l hold hlr (by simp [hmem])
      · have : l = row := by simpa using hnew
        rw [this, hrow]
        simpa [hid] using hhead
    obtain ⟨db', heq, hI, hRT, hR, hlinks, hothers⟩ := ih db2 r hfind2 hnod2 hfresh2
    refine ⟨db', by rw [hstep]; exact heq, hI, hRT, hR, ?_, ?_⟩
    · have hl2 : Db.linksOf db2 r = Db.linksOf db r ++ [row] := by
        simp [Db.linksOf, hdb2, List.filter_append, hrow]
      rw [hlinks, hl2]
      simp [hrow, hid, List.map_append]
    · intro r2 hr2
      have hl2 : Db.linksOf db2 r2 = Db.linksOf db r2 := by
        have hne : (r == r2) = false := by
          simp [beq_eq_false_iff_ne]
          exact fun he => hr2 he.symm
        simp [Db.linksOf, hdb2, List.filter_append, hrow, hne]
      rw [hothers r2 hr2, hl2]

theorem linksOf_eq_of_field (db db' : Db)
    (h : db'.ingredient_list = db.ingredient_list) :
    ∀ r : Nat, Db.linksOf db' r = Db.linksOf db r := by
  intro r
  rw [Db.linksOf, Db.linksOf, h]

theorem tagIdsOf_eq_of_field (db db' : Db)
    (h : db'.recipe_tags = db.recipe_tags) :
    ∀ r : Nat, Db.tagIdsOf db' r = Db.tagIdsOf db r := by
  intro r
  rw [Db.tagIdsOf, Db.tagIdsOf, h]

theorem filter_recipeTag_append (old new : List RecipeTag) (r2 : Nat)
    (hall : ∀ rt ∈ new, rt.recipe ≠ r2) :
    (old ++ new).filter (fun rt => rt.recipe == r2) =
      old.filter (fun rt => rt.recipe == r2) := by
  have hnil : new.filter (fun rt => rt.recipe == r2) = [] :=
    List.filter_eq_nil_iff.mpr
      (fun rt hm => by simpa [beq_iff_eq] using hall rt hm)
  rw [List.filter_append, hnil, List.append_nil]

/-- C7: a successful recipe update (all submitted ingredient ids
resolve and are duplicate-free, as validation guarantees) leaves the
recipe with exactly the submitted (ingredient id, amount) pairs as its
ingredient links and exactly the submitted tag ids as its tag set — no
pre-existing association survives — while the associations of every
other recipe are untouched. -/
theorem c7_update_replaces_associations :
    ∀ (db : Db) (r : Nat) (p : RecipePayload),
      (∀ i ∈ p.ingredients,
        (db.ingredients.find? (fun g => (g.id : Int) == i.id)).isSome = true) →
      ((p.ingredients.map (fun i => i.id)).Nodup) →
      ∃ db', CreateRecipeSerializer.update db r p = .ok db' ∧
        (Db.linksOf db' r).map (fun l => ((l.ingredient : Int), l.amount)) =
          p.ingredients.map (fun i => (i.id, i.amount)) ∧
        (∀ t, t ∈ Db.tagIdsOf db' r ↔ t ∈ p.tags) ∧
        (∀ r2, r2 ≠ r →
          Db.linksOf db' r2 = Db.linksOf db r2 ∧
          Db.tagIdsOf db' r2 = Db.tagIdsOf db r2) := by
  intro db r p hfind hnod
  set db1 : Db := clearTags (clearIngredients db r) r with hdb1
  have hI1 : db1.ingredients = db.ingredients := rfl
  have hlist1 : db1.ingredient_list =
      db.ingredient_list.filter (fun l => l.recipe != r) := rfl
  have hrts1 : db1.recipe_tags =
      db.recipe_tags.filter (fun rt => rt.recipe != r) := rfl
  have hfind1 : ∀ i ∈ p.ingredients,
      (db1.ingredients.find? (fun g => (g.id : Int) == i.id)).isSome = true := by
    rw [hI1]; exact hfind
  have hfresh1 : ∀ l ∈ db1.ingredient_list, l.recipe = r →
      (l.ingredient : Int) ∉ p.ingredients.map (fun i => i.id) := by
    intro l hl hlr
    rw [hlist1] at hl
    have := (List.mem_filter.mp hl).2
    simp [bne, hlr] at this
  obtain ⟨db2, heq2, hI2, hRT2, hR2, hlinks2, hothers2⟩ :=
    addIngredientLinks_ok p.ingredients db1 r hfind1 hnod hfresh1
  set dbT : Db := addTags db2 r p.tags with hdbT
  obtain ⟨hTlist, _, _⟩ := addTags_ingredient_list p.tags db2 r
  set db' : Db := setScalarFields dbT r p with hdbF
  have hupd : CreateRecipeSerializer.update db r p = .ok db' := by
    rw [CreateRecipeSerializer.update, CreateRecipeSerializer.recipe_create_or_update,
      ← hdb1, heq2]
  have hlinks_r1 : Db.linksOf db1 r = [] := by
    rw [Db.linksOf, hlist1]
    exact filter_key_ne_then_eq (fun l => l.recipe) db.ingredient_list r
  have hFlist : db'.ingredient_list = db2.ingredient_list := hTlist
  have hFrts : db'.recipe_tags = dbT.recipe_tags := rfl
  refine ⟨db', hupd, ?_, ?_, ?_⟩
  · rw [linksOf_eq_of_field db2 db' hFlist r, hlinks2, hlinks_r1]
    simp
  · intro t
    have hbridge : t ∈ Db.tagIdsOf db' r ↔ (⟨r, t⟩ : RecipeTag) ∈ dbT.recipe_tags := by
      rw [mem_tagIdsOf, hFrts]
    rw [hbridge, hdbT, addTags_mem p.tags db2 r ⟨r, t⟩, hRT2, hrts1]
    constructor
    · rintro (hm | ⟨_, hmem⟩)
      · have := (List.mem_filter.mp hm).2
        simp [bne] at this
      · exact hmem
    · intro hmem
      exact Or.inr ⟨rfl, hmem⟩
  · intro r2 hr2
    constructor
    · rw [linksOf_eq_of_field db2 db' hFlist r2, hothers2 r2 hr2, Db.linksOf, hlist1,
        filter_key_ne_then_other (fun l => l.recipe) db.ingredient_list r r2 hr2]
      rfl
    · obtain ⟨newRts, hTnew, hTr⟩ := addTags_append p.tags db2 r
      rw [Db.tagIdsOf, hFrts, hdbT, hTnew,
        filter_recipeTag_append db2.recipe_tags newRts r2
          (fun rt hm => by rw [hTr rt hm]; exact fun he => hr2 he.symm),
        hRT2, hrts1,
        filter_key_ne_then_other (fun rt => rt.recipe) db.recipe_tags r r2 hr2]
      rfl

/-- A store where recipe 1 already has an ingredient link (ingredient
2, amount 5) and a tag association (tag 7), to be replaced by an
update. -/
def dbC7 : Db :=
  { users := [⟨1, "ann", "ann@example.com", "Ann", "A"⟩]
    ingredients := [⟨1, "flour", "g"⟩, ⟨2, "sugar", "g"⟩, ⟨3, "salt", "g"⟩]
    tags := [⟨7, "old", "#000", "old"⟩, ⟨8, "new", "#fff", "new"⟩]
    recipes := [⟨1, 1, "pie", "pie.png", "bake", 30⟩]
    ingredient_list := [⟨1, 2, 5⟩]
    recipe_tags := [⟨1, 7⟩]
    favorites := []
    shopping_carts := []
    follows := [] }

/-- The update payload replacing recipe 1's associations: ingredients
(1, 100) and (3, 2), tag 8. -/
def payloadC7 : RecipePayload :=
  ⟨[⟨1, 100⟩, ⟨3, 2⟩], [8], "pie v2", "pie2.png", "bake more", 45⟩

/-- C7, witness: the replacement theorem applied to the concrete store
`dbC7` and payload `payloadC7`. -/
theorem c7_update_replaces_associations_witness :
    ∃ db', CreateRecipeSerializer.update dbC7 1 payloadC7 = .ok db' ∧
      (Db.linksOf db' 1).map (fun l => ((l.ingredient : Int), l.amount)) =
        payloadC7.ingredients.map (fun i => (i.id, i.amount)) ∧
      (∀ t, t ∈ Db.tagIdsOf db' 1 ↔ t ∈ payloadC7.tags) ∧
      (∀ r2, r2 ≠ 1 →
        Db.linksOf db' r2 = Db.linksOf dbC7 r2 ∧
        Db.tagIdsOf db' r2 = Db.tagIdsOf dbC7 r2) :=
  c7_update_replaces_associations dbC7 1 payloadC7 (by decide) (by decide)

/-- View of a followed author produced by `FollowSerializer`: the user
fields plus `is_subscribed`, the (optionally truncated) recipe summary
list and the total recipe count. -/
structure FollowView where
  id : Nat
  username : String
  email : String
  first_name : String
  last_name : String
  is_subscribed : Bool
  recipes : List SerializedObj
  recipes_count : Nat
deriving DecidableEq, Repr

/-- Body of a rendered HTTP response. -/
inductive ResponseBody where
  | noBody : ResponseBody
  | errors : String → ResponseBody
  | validation : String → ResponseBody
  | recipeSummary : SerializedObj → ResponseBody
  | followData : FollowView → ResponseBody
deriving DecidableEq, Repr

/-- A rendered HTTP response: status code and body. -/
structure Response where
  status : Nat
  body : ResponseBody
deriving DecidableEq, Repr

/-- Outcome of handling one request: a rendered response, or an
unhandled Python-level fault escaping the view. -/
inductive Outcome where
  | response : Response → Outcome
  | fault : String → Outcome
deriving DecidableEq, Repr

/-- Fallback recipe for foreign-key lookups, see `defaultIngredient`. -/
def defaultRecipe : Recipe := ⟨0, 0, "", "", "", 0⟩

/-- The object the view code hands to `FavoriteSerializer` as its
instance: a Favorite row on the favorite path, a bare Recipe on the
cart path. -/
inductive PyInstance where
  | favoriteObj : Favorite → PyInstance
  | recipeObj : Recipe → PyInstance
deriving DecidableEq, Repr

/-- Attribute access `instance.recipe`.  Modelled from the spec: the
missing `recipes/models.py` (not under src) defines the entities; per
the data model (§3) a Favorite/CartItem join row has a Recipe
relationship, while a Recipe has an author, tags and ingredient pairs
and no attribute named `recipe`, so reading `.recipe` off a bare
Recipe raises AttributeError. -/
def PyInstance.getattr_recipe (db : Db) : PyInstance → Except String Recipe
  | .favoriteObj f => .ok ((db.findRecipe f.recipe).getD defaultRecipe)
  | .recipeObj _ => .error "AttributeError: Recipe object has no attribute recipe"

/-- Source `FavoriteSerializer.to_representation`:
`RecipeSerializer(instance.recipe).data`. -/
def FavoriteSerializer.to_representation (db : Db) (inst : PyInstance) :
    Except String SerializedObj :=
  (PyInstance.getattr_recipe db inst).map RecipeSerializer.data

/-- Source `RecipeViewSet.favorite` (POST): 404 when the recipe id does
not resolve; 400 with an errors body when a Favorite row already
exists; otherwise `FavoriteSerializer` re-validates (it passes here),
`save()` creates the row, and the response carries `serializer.data`,
i.e. the summary view of the linked recipe. -/
def RecipeViewSet.favorite (db : Db) (caller pk : Nat) : Outcome × Db :=
  match db.findRecipe pk with
  | none => (.response ⟨404, .noBody⟩, db)
  | some recipe =>
    if db.favorites.any (fun f => f.user == caller && f.recipe == recipe.id) then
      (.response ⟨400, .errors "Повторно добавить нельзя, он уже есть в избранном у пользователя"⟩, db)
    else
      match FavoriteSerializer.to_representation
          { db with favorites := db.favorites ++ [⟨caller, recipe.id⟩] }
          (.favoriteObj ⟨caller, recipe.id⟩) with
      | .error e =>
        (.fault e, { db with favorites := db.favorites ++ [⟨caller, recipe.id⟩] })
      | .ok body =>
        (.response ⟨201, .recipeSummary body⟩,
          { db with favorites := db.favorites ++ [⟨caller, recipe.id⟩] })

/-- Source `RecipeViewSet.delete_recipe` (DELETE favorite): when no
Favorite row matches, the source executes
`raise Response({'errors': ...}, 400)`; raising a non-exception object
makes Python raise TypeError, which nothing catches; otherwise the
matching rows are deleted and 204 returned. -/
def RecipeViewSet.delete_recipe (db : Db) (caller pk : Nat) : Outcome × Db :=
  match db.findRecipe pk with
  | none => (.response ⟨404, .noBody⟩, db)
  | some recipe =>
    if (db.favorites.filter (fun f => f.user == caller && f.recipe == recipe.id)).isEmpty then
      (.fault "TypeError: exceptions must derive from BaseException", db)
    else
      (.response ⟨204, .noBody⟩,
        { db with favorites :=
            db.favorites.filter (fun f => !(f.user == caller && f.recipe == recipe.id)) })

/-- Source `RecipeViewSet.shopping_cart` (POST): 400 with an errors
body when a ShoppingCart row already exists; otherwise the row is
created and the response body is
`FavoriteSerializer(recipe).data` — the serializer receives the bare
Recipe as its instance. -/
def RecipeViewSet.shopping_cart (db : Db) (caller pk : Nat) : Outcome × Db :=
  match db.findRecipe pk with
  | none => (.response ⟨404, .noBody⟩, db)
  | some recipe =>
    if db.shopping_carts.any (fun c => c.user == caller && c.recipe == recipe.id) then
      (.response ⟨400, .errors "Повторно добавить нельзя, он уже есть в списке покупок."⟩, db)
    else
      match FavoriteSerializer.to_representation
          { db with shopping_carts := db.shopping_carts ++ [⟨caller, recipe.id⟩] }
          (.recipeObj recipe) with
      | .error e =>
        (.fault e, { db with shopping_carts := db.shopping_carts ++ [⟨caller, recipe.id⟩] })
      | .ok body =>
        (.response ⟨201, .recipeSummary body⟩,
          { db with shopping_carts := db.shopping_carts ++ [⟨caller, recipe.id⟩] })

/-- Source `RecipeViewSet.shopping_cart_delete`: raises a DRF
ValidationError (rendered as 400) when no row matches, otherwise
deletes the matching rows and returns 204. -/
def RecipeViewSet.shopping_cart_delete (db : Db) (caller pk : Nat) : Outcome × Db :=
  match db.findRecipe pk with
  | none => (.response ⟨404, .noBody⟩, db)
  | some recipe =>
    if (db.shopping_carts.filter (fun c => c.user == caller && c.recipe == recipe.id)).isEmpty then
      (.response ⟨400, .validation "Рецепта в списке покупок нет!"⟩, db)
    else
      (.response ⟨204, .noBody⟩,
        { db with shopping_carts :=
            db.shopping_carts.filter (fun c => !(c.user == caller && c.recipe == recipe.id)) })

/-- Source `FollowSerializer.get_recipes`: the author's recipes as
summary views, truncated to `recipes_limit` when the query parameter is
present. -/
def FollowSerializer.get_recipes (db : Db) (recipes_limit : Option Nat)
    (author : User) : List SerializedObj :=
  match recipes_limit with
  | some lim => ((db.recipes.filter (fun r => r.author == author.id)).take lim).map RecipeSerializer.data
  | none => (db.recipes.filter (fun r => r.author == author.id)).map RecipeSerializer.data

/-- Source `FollowSerializer.get_recipes_count`: `obj.recipes.count()`. -/
def FollowSerializer.get_recipes_count (db : Db) (author : User) : Nat :=
  (db.recipes.filter (fun r => r.author == author.id)).length

/-- Source `FollowSerializer` output: user fields, `is_subscribed`,
`recipes` and `recipes_count`. -/
def FollowSerializer.data (db : Db) (caller : Option Nat)
    (recipes_limit : Option Nat) (author : User) : FollowView :=
  ⟨author.id, author.username, author.email, author.first_name, author.last_name,
    UsersSerializer.get_is_subscribed db caller author,
    FollowSerializer.get_recipes db recipes_limit author,
    FollowSerializer.get_recipes_count db author⟩

/-- Source `FollowPostSerializer.validate`: reject a self-follow, then
reject when a Follow row already exists for (caller, author). -/
def FollowPostSerializer.validate (db : Db) (caller author : Nat) :
    Except String Unit :=
  if caller == author then .error "Нельзя подписываться на самого себя!"
  else if db.follows.any (fun f => f.author == author && f.user == caller) then
    .error "Вы подписаны на автора!"
  else .ok ()

/-- Source `UsersViewSet.subscribe` (POST): 404 when the target id does
not resolve; otherwise run `FollowPostSerializer` validation, create
the Follow row on success, and return 201 with the Follow
representation of the target computed on the post-save store. -/
def UsersViewSet.subscribe (db : Db) (caller pk : Nat)
    (recipes_limit : Option Nat) : Outcome × Db :=
  match db.findUser pk with
  | none => (.response ⟨404, .noBody⟩, db)
  | some target =>
    match FollowPostSerializer.validate db caller target.id with
    | .error e => (.response ⟨400, .validation e⟩, db)
    | .ok _ =>
      (.response ⟨201,
        .followData (FollowSerializer.data
          { db with follows := db.follows ++ [⟨caller, target.id⟩] }
          (some caller) recipes_limit target)⟩,
        { db with follows := db.follows ++ [⟨caller, target.id⟩] })

/-- Source `UsersViewSet.subscribe_delete`: raises a DRF
ValidationError (rendered as 400) when no Follow row matches, otherwise
deletes the matching rows and returns 204. -/
def UsersViewSet.subscribe_delete (db : Db) (caller pk : Nat) : Outcome × Db :=
  match db.findUser pk with
  | none => (.response ⟨404, .noBody⟩, db)
  | some target =>
    if (db.follows.filter (fun f => f.author == target.id && f.user == caller)).isEmpty then
      (.response ⟨400, .validation "Вы не были подписаны на автора"⟩, db)
    else
      (.response ⟨204, .noBody⟩,
        { db with follows :=
            db.follows.filter (fun f => !(f.author == target.id && f.user == caller)) })

theorem isEmpty_false_of_mem {α : Type} {a : α} {l : List α} (h : a ∈ l) :
    l.isEmpty = false := by
  cases l with
  | nil => cases h
  | cons x xs => rfl

/-- C8: favorite add returns 400 with an errors body when a Favorite
row for (caller, recipe) exists, and otherwise creates exactly that row
and returns 201 with the summary view of the recipe; favorite remove,
however, does not render a structured error when no Favorite row
exists — the source raises a non-exception `Response` object, so the
request escapes as an unhandled TypeError — and deletes the row with
204 when one exists. -/
theorem c8_favorite_endpoints :
    ∀ (db : Db) (caller pk : Nat) (recipe : Recipe),
      db.findRecipe pk = some recipe →
      ((∃ f ∈ db.favorites, f.user = caller ∧ f.recipe = recipe.id) →
        RecipeViewSet.favorite db caller pk =
          (.response ⟨400, .errors "Повторно добавить нельзя, он уже есть в избранном у пользователя"⟩, db)) ∧
      ((¬ ∃ f ∈ db.favorites, f.user = caller ∧ f.recipe = recipe.id) →
        RecipeViewSet.favorite db caller pk =
          (.response ⟨201, .recipeSummary (RecipeSerializer.data recipe)⟩,
            { db with favorites := db.favorites ++ [⟨caller, recipe.id⟩] })) ∧
      ((¬ ∃ f ∈ db.favorites, f.user = caller ∧ f.recipe = recipe.id) →
        RecipeViewSet.delete_recipe db caller pk =
          (.fault "TypeError: exceptions must derive from BaseException", db)) ∧
      ((∃ f ∈ db.favorites, f.user = caller ∧ f.recipe = recipe.id) →
        ∃ db2 : Db,
          RecipeViewSet.delete_recipe db caller pk = (.response ⟨204, .noBody⟩, db2) ∧
          ∀ f : Favorite, f ∈ db2.favorites ↔
            f ∈ db.favorites ∧ ¬(f.user = caller ∧ f.recipe = recipe.id)) := by
  intro db caller pk recipe h
  have hid : recipe.id = pk := by
    have := List.find?_some h
    simpa [beq_iff_eq] using this
  refine ⟨?_, ?_, ?_, ?_⟩
  · intro hex
    have hany : (db.favorites.any (fun f => f.user == caller && f.recipe == recipe.id)) = true := by
      simp only [List.any_eq_true, Bool.and_eq_true, beq_iff_eq]
      exact hex
    simp [RecipeViewSet.favorite, h, hany]
  · intro hnex
    have hany : (db.favorites.any (fun f => f.user == caller && f.recipe == recipe.id)) = false := by
      rw [Bool.eq_false_iff]
      intro hc
      apply hnex
      simpa only [List.any_eq_true, Bool.and_eq_true, beq_iff_eq] using hc
    have hfind : Db.findRecipe
        { db with favorites := db.favorites ++ [⟨caller, recipe.id⟩] } recipe.id = some recipe := by
      show db.recipes.find? (fun r => r.id == recipe.id) = some recipe
      rw [hid]
      exact h
    have hrepr : FavoriteSerializer.to_representation
        { db with favorites := db.favorites ++ [⟨caller, recipe.id⟩] }
        (.favoriteObj ⟨caller, recipe.id⟩) = .ok (RecipeSerializer.data recipe) := by
      simp only [FavoriteSerializer.to_representation, PyInstance.getattr_recipe, hfind,
        Option.getD_some, Except.map]
    simp [RecipeViewSet.favorite, h, hany, hrepr]
  · intro hnex
    have hfilter : db.favorites.filter (fun f => f.user == caller && f.recipe == recipe.id) = [] := by
      apply List.filter_eq_nil_iff.mpr
      intro f hf hp
      apply hnex
      refine ⟨f, hf, ?_⟩
      simpa only [Bool.and_eq_true, beq_iff_eq] using hp
    simp [RecipeViewSet.delete_recipe, h, hfilter]
  · intro hex
    obtain ⟨f0, hf0, h1, h2⟩ := hex
    have hfmem : f0 ∈ db.favorites.filter (fun f => f.user == caller && f.recipe == recipe.id) :=
      List.mem_filter.mpr ⟨hf0, by simp [h1, h2]⟩
    have hempty : (db.favorites.filter
        (fun f => f.user == caller && f.recipe == recipe.id)).isEmpty = false :=
      isEmpty_false_of_mem hfmem
    refine ⟨{ db with favorites :=
        db.favorites.filter (fun f => !(f.user == caller && f.recipe == recipe.id)) }, ?_, ?_⟩
    · simp [RecipeViewSet.delete_recipe, h, hempty]
    · intro f
      simp only [List.mem_filter, Bool.not_eq_true', Bool.and_eq_false_iff,
        beq_eq_false_iff_ne, beq_iff_eq, not_and]
      constructor
      · rintro ⟨hm, hb⟩
        exact ⟨hm, fun e1 e2 => by rcases hb with hb | hb <;> exact hb (by simp [e1, e2])⟩
      · rintro ⟨hm, hn⟩
        refine ⟨hm, ?_⟩
        by_cases he : f.user = caller
        · exact Or.inr (hn he)
        · exact Or.inl he

/-- C9: cart add returns 400 with an errors body when the recipe is
already in the caller's cart; otherwise it creates the CartItem but
then crashes while serializing the response — `FavoriteSerializer`
receives the bare Recipe and its `to_representation` reads
`instance.recipe`, which a Recipe does not have — so no summary view is
returned; cart remove renders a 400 validation error when no row
matches and deletes the row with 204 when one exists. -/
theorem c9_cart_endpoints :
    ∀ (db : Db) (caller pk : Nat) (recipe : Recipe),
      db.findRecipe pk = some recipe →
      ((∃ c ∈ db.shopping_carts, c.user = caller ∧ c.recipe = recipe.id) →
        RecipeViewSet.shopping_cart db caller pk =
          (.response ⟨400, .errors "Повторно добавить нельзя, он уже есть в списке покупок."⟩, db)) ∧
      ((¬ ∃ c ∈ db.shopping_carts, c.user = caller ∧ c.recipe = recipe.id) →
        RecipeViewSet.shopping_cart db caller pk =
          (.fault "AttributeError: Recipe object has no attribute recipe",
            { db with shopping_carts := db.shopping_carts ++ [⟨caller, recipe.id⟩] })) ∧
      ((¬ ∃ c ∈ db.shopping_carts, c.user = caller ∧ c.recipe = recipe.id) →
        RecipeViewSet.shopping_cart_delete db caller pk =
          (.response ⟨400, .validation "Рецепта в списке покупок нет!"⟩, db)) ∧
      ((∃ c ∈ db.shopping_carts, c.user = caller ∧ c.recipe = recipe.id) →
        ∃ db2 : Db,
          RecipeViewSet.shopping_cart_delete db caller pk = (.response ⟨204, .noBody⟩, db2) ∧
          ∀ c : ShoppingCart, c ∈ db2.shopping_carts ↔
            c ∈ db.shopping_carts ∧ ¬(c.user = caller ∧ c.recipe = recipe.id)) := by
  intro db caller pk recipe h
  refine ⟨?_, ?_, ?_, ?_⟩
  · intro hex
    have hany : (db.shopping_carts.any (fun c => c.user == caller && c.recipe == recipe.id)) = true := by
      simp only [List.any_eq_true, Bool.and_eq_true, beq_iff_eq]
      exact hex
    simp [RecipeViewSet.shopping_cart, h, hany]
  · intro hnex
    have hany : (db.shopping_carts.any (fun c => c.user == caller && c.recipe == recipe.id)) = false := by
      rw [Bool.eq_false_iff]
      intro hc
      apply hnex
      simpa only [List.any_eq_true, Bool.and_eq_true, beq_iff_eq] using hc
    simp [RecipeViewSet.shopping_cart, h, hany, FavoriteSerializer.to_representation,
      PyInstance.getattr_recipe, Except.map]
  · intro hnex
    have hfilter : db.shopping_carts.filter (fun c => c.user == caller && c.recipe == recipe.id) = [] := by
      apply List.filter_eq_nil_iff.mpr
      intro c hc hp
      apply hnex
      refine ⟨c, hc, ?_⟩
      simpa only [Bool.and_eq_true, beq_iff_eq] using hp
    simp [RecipeViewSet.shopping_cart_delete, h, hfilter]
  · intro hex
    obtain ⟨c0, hc0, h1, h2⟩ := hex
    have hfmem : c0 ∈ db.shopping_carts.filter (fun c => c.user == caller && c.recipe == recipe.id) :=
      List.mem_filter.mpr ⟨hc0, by simp [h1, h2]⟩
    have hempty : (db.shopping_carts.filter
        (fun c => c.user == caller && c.recipe == recipe.id)).isEmpty = false :=
      isEmpty_false_of_mem hfmem
    refine ⟨{ db with shopping_carts :=
        db.shopping_carts.filter (fun c => !(c.user == caller && c.recipe == recipe.id)) }, ?_, ?_⟩
    · simp [RecipeViewSet.shopping_cart_delete, h, hempty]
    · intro c
      simp only [List.mem_filter, Bool.not_eq_true', Bool.and_eq_false_iff,
        beq_eq_false_iff_ne, beq_iff_eq, not_and]
      constructor
      · rintro ⟨hm, hb⟩
        exact ⟨hm, fun e1 e2 => by rcases hb with hb | hb <;> exact hb (by simp [e1, e2])⟩
      · rintro ⟨hm, hn⟩
        refine ⟨hm, ?_⟩
        by_cases he : c.user = caller
        · exact Or.inr (hn he)
        · exact Or.inl he

/-- C10: subscribe renders a 400 validation error when the target
equals the caller or when a Follow row already exists, and otherwise
creates the Follow row and returns 201 with the Follow representation
of the target; unsubscribe renders a 400 validation error when no
Follow row exists and otherwise deletes it and returns 204 with no
body. -/
theorem c10_subscribe_endpoints :
    ∀ (db : Db) (caller pk : Nat) (target : User) (recipes_limit : Option Nat),
      db.findUser pk = some target →
      (caller = target.id →
        UsersViewSet.subscribe db caller pk recipes_limit =
          (.response ⟨400, .validation "Нельзя подписываться на самого себя!"⟩, db)) ∧
      (caller ≠ target.id →
        (∃ f ∈ db.follows, f.author = target.id ∧ f.user = caller) →
        UsersViewSet.subscribe db caller pk recipes_limit =
          (.response ⟨400, .validation "Вы подписаны на автора!"⟩, db)) ∧
      (caller ≠ target.id →
        (¬ ∃ f ∈ db.follows, f.author = target.id ∧ f.user = caller) →
        UsersViewSet.subscribe db caller pk recipes_limit =
          (.response ⟨201, .followData (FollowSerializer.data
              { db with follows := db.follows ++ [⟨caller, target.id⟩] }
              (some caller) recipes_limit target)⟩,
            { db with follows := db.follows ++ [⟨caller, target.id⟩] })) ∧
      ((¬ ∃ f ∈ db.follows, f.author = target.id ∧ f.user = caller) →
        UsersViewSet.subscribe_delete db caller pk =
          (.response ⟨400, .validation "Вы не были подписаны на автора"⟩, db)) ∧
      ((∃ f ∈ db.follows, f.author = target.id ∧ f.user = caller) →
        ∃ db2 : Db,
          UsersViewSet.subscribe_delete db caller pk = (.response ⟨204, .noBody⟩, db2) ∧
          ∀ f : Follow, f ∈ db2.follows ↔
            f ∈ db.follows ∧ ¬(f.author = target.id ∧ f.user = caller)) := by
  intro db caller pk target recipes_limit h
  refine ⟨?_, ?_, ?_, ?_, ?_⟩
  · intro hceq
    have hbeq : (caller == target.id) = true := by simp [hceq]
    simp [UsersViewSet.subscribe, h, FollowPostSerializer.validate, hbeq]
  · intro hcne hex
    have hbeq : (caller == target.id) = false := by simp [hcne]
    have hany : (db.follows.any (fun f => f.author == target.id && f.user == caller)) = true := by
      simp only [List.any_eq_true, Bool.and_eq_true, beq_iff_eq]
      exact hex
    simp [UsersViewSet.subscribe, h, FollowPostSerializer.validate, hbeq, hany]
  · intro hcne hnex
    have hbeq : (caller == target.id) = false := by simp [hcne]
    have hany : (db.follows.any (fun f => f.author == target.id && f.user == caller)) = false := by
      rw [Bool.eq_false_iff]
      intro hc
      apply hnex
      simpa only [List.any_eq_true, Bool.and_eq_true, beq_iff_eq] using hc
    simp [UsersViewSet.subscribe, h, FollowPostSerializer.validate, hbeq, hany]
  · intro hnex
    have hfilter : db.follows.filter (fun f => f.author == target.id && f.user == caller) = [] := by
      apply List.filter_eq_nil_iff.mpr
      intro f hf hp
      apply hnex
      refine ⟨f, hf, ?_⟩
      simpa only [Bool.and_eq_true, beq_iff_eq] using hp
    simp [UsersViewSet.subscribe_delete, h, hfilter]
  · intro hex
    obtain ⟨f0, hf0, h1, h2⟩ := hex
    have hfmem : f0 ∈ db.follows.filter (fun f => f.author == target.id && f.user == caller) :=
      List.mem_filter.mpr ⟨hf0, by simp [h1, h2]⟩
    have hempty : (db.follows.filter
        (fun f => f.author == target.id && f.user == caller)).isEmpty = false :=
      isEmpty_false_of_mem hfmem
    refine ⟨{ db with follows :=
        db.follows.filter (fun f => !(f.author == target.id && f.user == caller)) }, ?_, ?_⟩
    · simp [UsersViewSet.subscribe_delete, h, hempty]
    · intro f
      simp only [List.mem_filter, Bool.not_eq_true', Bool.and_eq_false_iff,
        beq_eq_false_iff_ne, beq_iff_eq, not_and]
      constructor
      · rintro ⟨hm, hb⟩
        exact ⟨hm, fun e1 e2 => by rcases hb with hb | hb <;> exact hb (by simp [e1, e2])⟩
      · rintro ⟨hm, hn⟩
        refine ⟨hm, ?_⟩
        by_cases he : f.author = target.id
        · exact Or.inr (hn he)
        · exact Or.inl he

/-- A recipe used by the endpoint witnesses. -/
def rW : Recipe := ⟨1, 1, "soup", "s.png", "hot", 20⟩

/-- Store for the favorite-endpoint witness: user 1 has recipe 1 in
favorites, user 2 has not. -/
def dbW8 : Db :=
  { users := [⟨1, "u1", "u1@example.com", "U", "One"⟩, ⟨2, "u2", "u2@example.com", "U", "Two"⟩]
    ingredients := []
    tags := []
    recipes := [rW]
    ingredient_list := []
    recipe_tags := []
    favorites := [⟨1, 1⟩]
    shopping_carts := []
    follows := [] }

/-- C8, witness: the favorite-endpoint theorem applied to `dbW8` for
callers 1 (row exists) and 2 (row absent). -/
theorem c8_favorite_endpoints_witness :
    RecipeViewSet.favorite dbW8 1 1 =
      (.response ⟨400, .errors "Повторно добавить нельзя, он уже есть в избранном у пользователя"⟩, dbW8) ∧
    RecipeViewSet.favorite dbW8 2 1 =
      (.response ⟨201, .recipeSummary (RecipeSerializer.data rW)⟩,
        { dbW8 with favorites := dbW8.favorites ++ [⟨2, rW.id⟩] }) ∧
    RecipeViewSet.delete_recipe dbW8 2 1 =
      (.fault "TypeError: exceptions must derive from BaseException", dbW8) ∧
    (∃ db2 : Db, RecipeViewSet.delete_recipe dbW8 1 1 = (.response ⟨204, .noBody⟩, db2) ∧
      ∀ f : Favorite, f ∈ db2.favorites ↔
        f ∈ dbW8.favorites ∧ ¬(f.user = 1 ∧ f.recipe = rW.id)) :=
  ⟨(c8_favorite_endpoints dbW8 1 1 rW (by decide)).1 (by decide),
   (c8_favorite_endpoints dbW8 2 1 rW (by decide)).2.1 (by decide),
   (c8_favorite_endpoints dbW8 2 1 rW (by decide)).2.2.1 (by decide),
   (c8_favorite_endpoints dbW8 1 1 rW (by decide)).2.2.2 (by decide)⟩

/-- Store for the cart-endpoint witness: user 1 has recipe 1 in the
cart, user 2 has not. -/
def dbW9 : Db :=
  { users := [⟨1, "u1", "u1@example.com", "U", "One"⟩, ⟨2, "u2", "u2@example.com", "U", "Two"⟩]
    ingredients := []
    tags := []
    recipes := [rW]
    ingredient_list := []
    recipe_tags := []
    favorites := []
    shopping_carts := [⟨1, 1⟩]
    follows := [] }

/-- C9, witness: the cart-endpoint theorem applied to `dbW9` for
callers 1 (row exists) and 2 (row absent). -/
theorem c9_cart_endpoints_witness :
    RecipeViewSet.shopping_cart dbW9 1 1 =
      (.response ⟨400, .errors "Повторно добавить нельзя, он уже есть в списке покупок."⟩, dbW9) ∧
    RecipeViewSet.shopping_cart dbW9 2 1 =
      (.fault "AttributeError: Recipe object has no attribute recipe",
        { dbW9 with shopping_carts := dbW9.shopping_carts ++ [⟨2, rW.id⟩] }) ∧
    RecipeViewSet.shopping_cart_delete dbW9 2 1 =
      (.response ⟨400, .validation "Рецепта в списке покупок нет!"⟩, dbW9) ∧
    (∃ db2 : Db, RecipeViewSet.shopping_cart_delete dbW9 1 1 = (.response ⟨204, .noBody⟩, db2) ∧
      ∀ c : ShoppingCart, c ∈ db2.shopping_carts ↔
        c ∈ dbW9.shopping_carts ∧ ¬(c.user = 1 ∧ c.recipe = rW.id)) :=
  ⟨(c9_cart_endpoints dbW9 1 1 rW (by decide)).1 (by decide),
   (c9_cart_endpoints dbW9 2 1 rW (by decide)).2.1 (by decide),
   (c9_cart_endpoints dbW9 2 1 rW (by decide)).2.2.1 (by decide),
   (c9_cart_endpoints dbW9 1 1 rW (by decide)).2.2.2 (by decide)⟩

/-- Users of the subscribe-endpoint witness store. -/
def uW1 : User := ⟨1, "u1", "u1@example.com", "U", "One"⟩

/-- Second user of the subscribe-endpoint witness store. -/
def uW2 : User := ⟨2, "u2", "u2@example.com", "U", "Two"⟩

/-- Store for the subscribe-endpoint witness: user 1 follows author 2. -/
def dbW10 : Db :=
  { users := [uW1, uW2]
    ingredients := []
    tags := []
    recipes := []
    ingredient_list := []
    recipe_tags := []
    favorites := []
    shopping_carts := []
    follows := [⟨1, 2⟩] }

/-- C10, witness: the subscribe-endpoint theorem applied to `dbW10`:
self-follow of user 2, duplicate follow 1→2, fresh follow 2→1,
unsubscribe without a row (2 from 1) and with one (1 from 2). -/
theorem c10_subscribe_endpoints_witness :
    UsersViewSet.subscribe dbW10 2 2 none =
      (.response ⟨400, .validation "Нельзя подписываться на самого себя!"⟩, dbW10) ∧
    UsersViewSet.subscribe dbW10 1 2 none =
      (.response ⟨400, .validation "Вы подписаны на автора!"⟩, dbW10) ∧
    UsersViewSet.subscribe dbW10 2 1 none =
      (.response ⟨201, .followData (FollowSerializer.data
          { dbW10 with follows := dbW10.follows ++ [⟨2, uW1.id⟩] } (some 2) none uW1)⟩,
        { dbW10 with follows := dbW10.follows ++ [⟨2, uW1.id⟩] }) ∧
    UsersViewSet.subscribe_delete dbW10 2 1 =
      (.response ⟨400, .validation "Вы не были подписаны на автора"⟩, dbW10) ∧
    (∃ db2 : Db, UsersViewSet.subscribe_delete dbW10 1 2 = (.response ⟨204, .noBody⟩, db2) ∧
      ∀ f : Follow, f ∈ db2.follows ↔
        f ∈ dbW10.follows ∧ ¬(f.author = uW2.id ∧ f.user = 1)) :=
  ⟨(c10_subscribe_endpoints dbW10 2 2 uW2 none (by decide)).1 (by decide),
   (c10_subscribe_endpoints dbW10 1 2 uW2 none (by decide)).2.1 (by decide) (by decide),
   (c10_subscribe_endpoints dbW10 2 1 uW1 none (by decide)).2.2.1 (by decide) (by decide),
   (c10_subscribe_endpoints dbW10 2 1 uW1 none (by decide)).2.2.2.1 (by decide),
   (c10_subscribe_endpoints dbW10 1 2 uW2 none (by decide)).2.2.2.2 (by decide)⟩

end Foodgram
